import Mathlib

/-!
Verification development for the ANT network-testing tool (src/ant.py).

We shallowly embed the parts of the program the specification talks about:
the dynamically-typed values flowing through the import/coercion layer
(`PyVal`), the type-coercion helper `Test.convert_type`, the traceroute
hop formatter `TracerouteResult.__str__`, the test constructors and the
`run()` template, the traceroute command construction, the engine's drain
loop over `ImportHandler.next_test`, the CSV import row processing, and
the stdout export handler's dispatch.

Modelling conventions:
- Python values are the inductive `PyVal`; `None` is `PyVal.none`.
- Python floats are modelled as exact rationals; the decimal rendering of
  a float by str()/f-strings is abstracted by `pyFloatRepr` (no claim
  depends on the printed digits of a float).
- Raised exceptions are modelled with `Except PyError`.
- Machine integers do not overflow in Python, so `Int` is used directly.
-/

namespace Ant

/-- A dynamically-typed Python value as it flows through the import and
coercion layer: `None`, an int, a float (exact rational), a bool, or a str. -/
inductive PyVal where
  | none : PyVal
  | int : Int → PyVal
  | float : ℚ → PyVal
  | bool : Bool → PyVal
  | str : String → PyVal
deriving DecidableEq

/-- The target types that `convert_type` is called with: int, float, bool, str. -/
inductive PyType where
  | int : PyType
  | float : PyType
  | bool : PyType
  | str : PyType
deriving DecidableEq

/-- Python's `isinstance`, restricted to the four primitive types used by the
program. Note the Python quirk: `bool` is a subclass of `int`, so
`isinstance(True, int)` is `True`; an int is not an instance of `float`. -/
def isinstance : PyVal → PyType → Bool
  | PyVal.bool _, PyType.bool => true
  | PyVal.bool _, PyType.int => true
  | PyVal.int _, PyType.int => true
  | PyVal.float _, PyType.float => true
  | PyVal.str _, PyType.str => true
  | _, _ => false

/-- The exceptions the embedded code can raise. `typeError` carries the
message; `valueError` and `attributeError` model Python's `ValueError`
(raised inside `convert_type`; always caught there) and `AttributeError`
(e.g. calling `.lower()` on a non-string, or `.strftime` on `None`). -/
inductive PyError where
  | typeError : String → PyError
  | valueError : PyError
  | attributeError : PyError
deriving DecidableEq

/-- Decimal rendering of a natural number (Python's `str` for naturals). -/
def pyNatRepr (n : Nat) : String := Nat.repr n

/-- Decimal rendering of a Python int. -/
def pyIntRepr (n : Int) : String :=
  if n < 0 then "-" ++ pyNatRepr n.natAbs else pyNatRepr n.natAbs

/-- Rendering of a Python float. Python prints a decimal expansion; we
abstract this to the exact rational rendering. No claim depends on the
digits a float prints as. -/
def pyFloatRepr (q : ℚ) : String := toString q

/-- Python's `str()` (also what an f-string interpolation produces). -/
def pyStr : PyVal → String
  | PyVal.none => "None"
  | PyVal.int n => pyIntRepr n
  | PyVal.float q => pyFloatRepr q
  | PyVal.bool b => if b then "True" else "False"
  | PyVal.str s => s

/-- How a Python type object prints inside an f-string, e.g. f"{int}". -/
def pyTypeName : PyType → String
  | PyType.int => "<class 'int'>"
  | PyType.float => "<class 'float'>"
  | PyType.bool => "<class 'bool'>"
  | PyType.str => "<class 'str'>"

/-- Python truthiness of a value (`if value:`): `None`, `0`, `0.0`, `False`
and the empty string are falsy, everything else is truthy. -/
def pyTruthy : PyVal → Bool
  | PyVal.none => false
  | PyVal.int n => n ≠ 0
  | PyVal.float q => q ≠ 0
  | PyVal.bool b => b
  | PyVal.str s => s ≠ ""

/-- Parse a list of decimal digit characters to a Nat (helper for the
int()/float() string parsers). Fails on the empty list or a non-digit. -/
def parseDigits (cs : List Char) : Option Nat :=
  if cs ≠ [] ∧ cs.all Char.isDigit then
    Option.some (cs.foldl (fun a c => a * 10 + (c.toNat - 48)) 0)
  else
    Option.none

/-- Python's `int(s)` on a string: optional surrounding whitespace, optional
sign, decimal digits. (Underscore separators are not modelled.) -/
def pyParseInt (s : String) : Option Int :=
  let t := s.trim
  if t.startsWith "-" then (parseDigits (t.drop 1).data).map fun n => -(n : Int)
  else if t.startsWith "+" then (parseDigits (t.drop 1).data).map fun n => (n : Int)
  else (parseDigits t.data).map fun n => (n : Int)

/-- Python's `float(s)` on a string: optional sign, digits with an optional
decimal point (".5" and "5." are accepted, "." alone is not). Exponent
forms, inf and nan are not modelled; no claim depends on them. -/
def pyParseFloat (s : String) : Option ℚ :=
  let t := s.trim
  let sign : ℚ := if t.startsWith "-" then -1 else 1
  let body := if t.startsWith "-" ∨ t.startsWith "+" then t.drop 1 else t
  match body.splitOn "." with
  | [w] => (parseDigits w.data).map fun n => sign * (n : ℚ)
  | [w, f] =>
    if w = "" ∧ f = "" then Option.none
    else
      match (if w = "" then Option.some 0 else parseDigits w.data),
            (if f = "" then Option.some 0 else parseDigits f.data) with
      | Option.some wn, Option.some fn =>
        Option.some (sign * ((wn : ℚ) + (fn : ℚ) / (10 : ℚ) ^ f.length))
      | _, _ => Option.none
  | _ => Option.none

/-- Python's `str.lower()` (character-wise lower-casing; the inputs the
program compares after lowering are ASCII). -/
def pyLower (s : String) : String := String.mk (s.data.map Char.toLower)

/-- Truncation toward zero, which is what Python's `int()` does to a float. -/
def ratTrunc (q : ℚ) : Int := if 0 ≤ q then Int.floor q else Int.ceil q

/-- Calling a type object on a value, i.e. `to_type(arg)` for the non-bool
branch of `convert_type` (bool targets are special-cased there). A failed
string parse is Python's `ValueError`; calling `int`/`float` on `None` is a
`TypeError` (unreachable from `convert_type`, which handles `None` first). -/
def pyCallType : PyType → PyVal → Except PyError PyVal
  | PyType.int, PyVal.str s =>
    match pyParseInt s with
    | Option.some n => Except.ok (PyVal.int n)
    | Option.none => Except.error PyError.valueError
  | PyType.int, PyVal.float q => Except.ok (PyVal.int (ratTrunc q))
  | PyType.int, PyVal.bool b => Except.ok (PyVal.int (if b then 1 else 0))
  | PyType.int, PyVal.int n => Except.ok (PyVal.int n)
  | PyType.int, PyVal.none => Except.error (PyError.typeError "int() argument must not be None")
  | PyType.float, PyVal.str s =>
    match pyParseFloat s with
    | Option.some q => Except.ok (PyVal.float q)
    | Option.none => Except.error PyError.valueError
  | PyType.float, PyVal.int n => Except.ok (PyVal.float (n : ℚ))
  | PyType.float, PyVal.bool b => Except.ok (PyVal.float (if b then 1 else 0))
  | PyType.float, PyVal.float q => Except.ok (PyVal.float q)
  | PyType.float, PyVal.none => Except.error (PyError.typeError "float() argument must not be None")
  | PyType.str, v => Except.ok (PyVal.str (pyStr v))
  | PyType.bool, v => Except.ok (PyVal.bool (pyTruthy v))

/-- `Test.convert_type(arg, to_type, default=None)` from src/ant.py.

If `arg` is `None`, return `default`. If `arg` is already an instance of
`to_type`, return it unchanged. Otherwise convert: boolean targets accept
only the case-insensitive string literals "true"/"false" (any other string
raises `ValueError`, caught and re-raised as
`TypeError(f"Cannot convert \x7barg\x7d to \x7bto_type\x7d")`); a non-string
argument reaching the bool branch hits `.lower()` and raises
`AttributeError`, which the `except ValueError` does not catch. Other
targets call `to_type(arg)`, with `ValueError` likewise re-raised as that
`TypeError`. -/
def convert_type (arg : PyVal) (to_type : PyType) (default : PyVal) : Except PyError PyVal :=
  if arg = PyVal.none then Except.ok default
  else if isinstance arg to_type then Except.ok arg
  else if to_type = PyType.bool then
    match arg with
    | PyVal.str s =>
      if pyLower s = "true" then Except.ok (PyVal.bool true)
      else if pyLower s = "false" then Except.ok (PyVal.bool false)
      else Except.error (PyError.typeError ("Cannot convert " ++ pyStr arg ++ " to " ++ pyTypeName to_type))
    | _ => Except.error PyError.attributeError
  else
    match pyCallType to_type arg with
    | Except.ok v => Except.ok v
    | Except.error PyError.valueError =>
      Except.error (PyError.typeError ("Cannot convert " ++ pyStr arg ++ " to " ++ pyTypeName to_type))
    | Except.error e => Except.error e

/-- A wall-clock instant, the part of Python's `datetime` the program uses. -/
structure Datetime where
  year : Nat
  month : Nat
  day : Nat
  hour : Nat
  minute : Nat
  second : Nat
deriving DecidableEq

/-- Zero-padded two-digit rendering, as `strftime` produces for %H etc. -/
def pad2 (n : Nat) : String :=
  if n < 10 then "0" ++ pyNatRepr n else pyNatRepr n

/-- `timestamp.strftime("%H:%M:%S %d-%m-%Y")` from StdoutExportHandler. -/
def strftimeHMSDMY (t : Datetime) : String :=
  pad2 t.hour ++ ":" ++ pad2 t.minute ++ ":" ++ pad2 t.second ++ " " ++
    pad2 t.day ++ "-" ++ pad2 t.month ++ "-" ++ pyNatRepr t.year

/-- One probe record of a traceroute hop, as produced by the external jc
parser: the responding router's resolved name, its address, and the
round-trip time (a float, held as an exact rational). -/
structure Probe where
  name : String
  ip : String
  rtt : ℚ
deriving DecidableEq

/-- One hop record of a traceroute: the 1-based hop index and the ordered,
possibly empty, list of probe responses. -/
structure Hop where
  hop : Int
  probes : List Probe
deriving DecidableEq

/-- The f-string `f"\x7bp['name']\x7d (\x7bp['ip']\x7d) \x7bp['rtt']\x7d ms"`
used by `TracerouteResult.__str__` for a probe that starts a line. -/
def probeText (p : Probe) : String :=
  p.name ++ " (" ++ p.ip ++ ") " ++ pyFloatRepr p.rtt ++ " ms"

/-- The inner loop of `TracerouteResult.__str__` over `hop['probes'][1:]`:
`prev_ip` is the address of the immediately preceding probe; a probe with
the same address appends two spaces and its RTT to the current line, a
probe with a different address starts a new line indented by four spaces
with its full details; `prev_ip` is updated after every probe. -/
def restProbesText (prev_ip : String) : List Probe → String
  | [] => ""
  | p :: rest =>
    (if p.ip = prev_ip then "  " ++ pyFloatRepr p.rtt ++ " ms"
     else "\n" ++ "    " ++ probeText p) ++ restProbesText p.ip rest

/-- The per-hop body of `TracerouteResult.__str__`: the hop index padded on
the left to width 2, two spaces, then either "* * *" for a hop with no
probe responses, or the first probe's full details followed by the
aggregation loop over the remaining probes; the hop ends with a newline. -/
def hopText (h : Hop) : String :=
  let hop_num_str := pyIntRepr h.hop
  let pad_space := String.mk (List.replicate (2 - hop_num_str.length) ' ')
  pad_space ++ hop_num_str ++ "  " ++
    (match h.probes with
     | [] => "* * *"
     | first :: rest => probeText first ++ restProbesText first.ip rest) ++ "\n"

/-- The whole of `TracerouteResult.__str__`: starting from the empty string,
append each hop's rendering in order. An empty hop list yields "". -/
def traceroute_str (hops : List Hop) : String :=
  hops.foldl (fun acc h => acc ++ hopText h) ""

/-- The data dict the external jc parser returns for a traceroute run. -/
structure TraceData where
  destination_ip : String
  destination_name : String
  hops : List Hop
deriving DecidableEq

/-- `TracerouteResult`: destination ip/name and hops from the jc data, with
the timestamp and id passed up to the `Result` base constructor. -/
structure TracerouteResultS where
  timestamp : Option Datetime
  id_number : PyVal
  destination_ip : String
  destination_name : String
  hops : List Hop
deriving DecidableEq

/-- `TracerouteResult.__init__(timestamp, id_number, data)`. -/
def TracerouteResult.make (timestamp : Option Datetime) (id_number : PyVal) (data : TraceData) : TracerouteResultS :=
  { timestamp := timestamp
    id_number := id_number
    destination_ip := data.destination_ip
    destination_name := data.destination_name
    hops := data.hops }

/-- `TracerouteResult.__str__` as a method of the result object. -/
def TracerouteResultS.str (r : TracerouteResultS) : String :=
  traceroute_str r.hops

/-- The icmplib `Host` object returned by the external `ping()` collaborator.
Its own string rendering (`host.__str__()`, stored by `PingResult` into
`str_format`) is opaque external behaviour, carried here as a field. -/
structure Host where
  address : String
  is_alive : Bool
  min_rtt : ℚ
  avg_rtt : ℚ
  max_rtt : ℚ
  rtts : List ℚ
  packets_sent : Int
  packets_received : Int
  packet_loss : ℚ
  jitter : ℚ
  hostStr : String
deriving DecidableEq

/-- `PingResult`: the fields copied from the icmplib Host object, with the
timestamp and id passed up to the `Result` base constructor. -/
structure PingResultS where
  timestamp : Option Datetime
  id_number : PyVal
  destination : String
  is_alive : Bool
  min_rtt : ℚ
  avg_rtt : ℚ
  max_rtt : ℚ
  rtts : List ℚ
  packets_sent : Int
  packets_received : Int
  packet_loss : ℚ
  jitter : ℚ
  str_format : String
deriving DecidableEq

/-- `PingResult.__init__(timestamp, id_number, host_obj)`. -/
def PingResult.make (timestamp : Option Datetime) (id_number : PyVal) (host_obj : Host) : PingResultS :=
  { timestamp := timestamp
    id_number := id_number
    destination := host_obj.address
    is_alive := host_obj.is_alive
    min_rtt := host_obj.min_rtt
    avg_rtt := host_obj.avg_rtt
    max_rtt := host_obj.max_rtt
    rtts := host_obj.rtts
    packets_sent := host_obj.packets_sent
    packets_received := host_obj.packets_received
    packet_loss := host_obj.packet_loss
    jitter := host_obj.jitter
    str_format := host_obj.hostStr }

/-- `PingResult.__str__`. -/
def PingResultS.str (r : PingResultS) : String :=
  "Host " ++ r.destination ++ " status: " ++ (if r.is_alive then "UP" else "DOWN") ++
    ". RTT values (min/avg/max/jitter): " ++ pyFloatRepr r.min_rtt ++ " / " ++
    pyFloatRepr r.avg_rtt ++ " / " ++ pyFloatRepr r.max_rtt ++ " / " ++
    pyFloatRepr r.jitter ++ ". Packets sent/received (loss%): " ++
    pyIntRepr r.packets_sent ++ "/" ++ pyIntRepr r.packets_received ++ " (" ++
    pyFloatRepr (r.packet_loss * 100) ++ "%)."

/-- A `PingTest` object: the id and timestamp from the `Test` base class,
plus the ping-specific parameters. `destination` is stored without any
conversion, exactly as passed. -/
structure PingTestS where
  id_number : PyVal
  timestamp : Option Datetime
  destination : PyVal
  count : PyVal
  payload_size : PyVal
  timeout : PyVal
  addr_family : PyVal
  interval : PyVal
deriving DecidableEq

/-- `PingTest.__init__`: `Test.__init__` coerces the id to int and sets
`timestamp = None`; then each keyword argument is coerced with its default
(count 5, payload_size 56, timeout 1, addr_family 4, interval 0.2). An
absent keyword arrives as `PyVal.none`. A coercion failure propagates. -/
def PingTest.make (id_number destination count payload_size timeout addr_family interval : PyVal) : Except PyError PingTestS :=
  match convert_type id_number PyType.int PyVal.none with
  | Except.error e => Except.error e
  | Except.ok idv =>
  match convert_type count PyType.int (PyVal.int 5) with
  | Except.error e => Except.error e
  | Except.ok cv =>
  match convert_type payload_size PyType.int (PyVal.int 56) with
  | Except.error e => Except.error e
  | Except.ok pv =>
  match convert_type timeout PyType.int (PyVal.int 1) with
  | Except.error e => Except.error e
  | Except.ok tv =>
  match convert_type addr_family PyType.int (PyVal.int 4) with
  | Except.error e => Except.error e
  | Except.ok av =>
  match convert_type interval PyType.float (PyVal.float (1 / 5)) with
  | Except.error e => Except.error e
  | Except.ok iv =>
    Except.ok
      { id_number := idv
        timestamp := Option.none
        destination := destination
        count := cv
        payload_size := pv
        timeout := tv
        addr_family := av
        interval := iv }

/-- `PingTest.run()` = the `Test.run` template instantiated with the ping
`_specific_run`: stamp `self.timestamp = now` first, then build the
`PingResult` from the external collaborator's `Host` with
`timestamp=self.timestamp, id_number=self.id_number`. Returns the mutated
test object together with the result. -/
def PingTest.run (t : PingTestS) (now : Datetime) (host : Host) : PingTestS × PingResultS :=
  let t2 := { t with timestamp := Option.some now }
  (t2, PingResult.make t2.timestamp t2.id_number host)

/-- A `TracerouteTest` object: the id and timestamp from the `Test` base
class plus the traceroute-specific parameters. After construction,
`interval` holds `int(interval * 1000)` (milliseconds). -/
structure TracerouteTestS where
  id_number : PyVal
  timestamp : Option Datetime
  destination : PyVal
  count : PyVal
  payload_size : PyVal
  timeout : PyVal
  max_probes : PyVal
  dont_resolve_names : PyVal
  interval : PyVal
deriving DecidableEq

/-- Python's `int(x * 1000)` applied to the coerced interval. After
`convert_type(..., float, ...)` the value is a float (or whatever
non-float an `isinstance` pass-through produced): multiplying a float or
int by 1000 and truncating is modelled exactly; `str * 1000` is string
repetition, so `int` on it raises `ValueError` (uncaught here);
`int(None * 1000)` is a `TypeError`. -/
def intTimes1000 : PyVal → Except PyError PyVal
  | PyVal.float q => Except.ok (PyVal.int (ratTrunc (q * 1000)))
  | PyVal.int n => Except.ok (PyVal.int (n * 1000))
  | PyVal.bool b => Except.ok (PyVal.int (if b then 1000 else 0))
  | PyVal.str _ => Except.error PyError.valueError
  | PyVal.none => Except.error (PyError.typeError "unsupported operand type(s) for *: NoneType and int")

/-- `TracerouteTest.__init__`: `Test.__init__` coerces the id and sets
`timestamp = None`; then the keyword arguments are coerced with their
defaults (count 3, payload_size None — i.e. no default —, timeout 1,
max_probes 30, dont_resolve_names False, interval 0.5); finally the
interval in seconds is replaced by `int(self.interval * 1000)`
milliseconds. -/
def TracerouteTest.make (id_number destination count payload_size timeout max_probes dont_resolve_names interval : PyVal) : Except PyError TracerouteTestS :=
  match convert_type id_number PyType.int PyVal.none with
  | Except.error e => Except.error e
  | Except.ok idv =>
  match convert_type count PyType.int (PyVal.int 3) with
  | Except.error e => Except.error e
  | Except.ok cv =>
  match convert_type payload_size PyType.int PyVal.none with
  | Except.error e => Except.error e
  | Except.ok pv =>
  match convert_type timeout PyType.int (PyVal.int 1) with
  | Except.error e => Except.error e
  | Except.ok tv =>
  match convert_type max_probes PyType.int (PyVal.int 30) with
  | Except.error e => Except.error e
  | Except.ok mv =>
  match convert_type dont_resolve_names PyType.bool (PyVal.bool false) with
  | Except.error e => Except.error e
  | Except.ok dv =>
  match convert_type interval PyType.float (PyVal.float (1 / 2)) with
  | Except.error e => Except.error e
  | Except.ok iv0 =>
  match intTimes1000 iv0 with
  | Except.error e => Except.error e
  | Except.ok iv =>
    Except.ok
      { id_number := idv
        timestamp := Option.none
        destination := destination
        count := cv
        payload_size := pv
        timeout := tv
        max_probes := mv
        dont_resolve_names := dv
        interval := iv }

/-- The `command` list built by `TracerouteTest._specific_run` before
filtering: note the mix of strings and the raw `payload_size` value, and
the `"-n" if self.dont_resolve_names else ""` element. -/
def traceroute_command (t : TracerouteTestS) : List PyVal :=
  [ PyVal.str "traceroute",
    (if pyTruthy t.dont_resolve_names then PyVal.str "-n" else PyVal.str ""),
    PyVal.str "-w", PyVal.str (pyStr t.timeout),
    PyVal.str "-q", PyVal.str (pyStr t.count),
    PyVal.str "-m", PyVal.str (pyStr t.max_probes),
    PyVal.str "-z", PyVal.str (pyStr t.interval),
    t.destination,
    t.payload_size ]

/-- The list-comprehension filter `[item for item in command if item]` that
drops the falsy elements (None, empty strings) before the subprocess call. -/
def traceroute_command_filtered (t : TracerouteTestS) : List PyVal :=
  (traceroute_command t).filter pyTruthy

/-- `TracerouteTest.run()` = the `Test.run` template instantiated with the
traceroute `_specific_run`: stamp `self.timestamp = now`, run the external
subprocess + jc collaborators (their parsed output is the `data`
argument), and build the `TracerouteResult` with
`timestamp=self.timestamp, id_number=self.id_number`. -/
def TracerouteTest.run (t : TracerouteTestS) (now : Datetime) (data : TraceData) : TracerouteTestS × TracerouteResultS :=
  let t2 := { t with timestamp := Option.some now }
  (t2, TracerouteResult.make t2.timestamp t2.id_number data)

/-- `ImportHandler.next_test`: pop the head of `self.tests` and return it,
or return `None` when the list is empty (the end-of-stream marker). The
returned pair is (popped test or None, remaining queue). -/
def next_test {α : Type} : List α → Option α × List α
  | [] => (Option.none, [])
  | t :: rest => (Option.some t, rest)

/-- `TestEngine.run_tests`: loop `test = next_test(); if test is None:
break; else export(run(test))`. `runf` is `test.run()` composed with the
export sink; the returned list is the sequence of exported results in the
order the sink received them. -/
def run_tests {α β : Type} (runf : α → β) (tests : List α) : List β :=
  match h : next_test tests with
  | (Option.none, _) => []
  | (Option.some t, rest) => runf t :: run_tests runf rest
termination_by tests.length
decreasing_by
  cases tests with
  | nil => simp [next_test] at h
  | cons a l =>
    simp only [next_test, Prod.mk.injEq, Option.some.injEq] at h
    simp [← h.2]

/-- The two registered Test subclasses, keyed by their `name` class
attribute via `tests_register = \x7bcls.name: cls\x7d`. -/
inductive TestKind where
  | ping : TestKind
  | traceroute : TestKind
deriving DecidableEq

/-- `self.tests_register.get(row['test_type'])`: a dict lookup that yields
`None` for any discriminator that is not "ping" or "traceroute" (including
a missing/empty field that the data cleaner turned into `None`). -/
def tests_register_get : Option String → Option TestKind
  | Option.some "ping" => Option.some TestKind.ping
  | Option.some "traceroute" => Option.some TestKind.traceroute
  | _ => Option.none

/-- A CSV row after `CsvImportHandler.data_cleaner` has run: empty strings
have become `None` and the remaining fields are the raw (string) values
for the keyword arguments of the Test subclass constructors. -/
structure Row where
  test_type : Option String
  id_number : PyVal
  destination : PyVal
  count : PyVal
  payload_size : PyVal
  timeout : PyVal
  max_probes : PyVal
  dont_resolve_names : PyVal
  addr_family : PyVal
  interval : PyVal
deriving DecidableEq

/-- A constructed Test object of either registered subclass. -/
inductive TestObj where
  | ping : PingTestS → TestObj
  | traceroute : TracerouteTestS → TestObj
deriving DecidableEq

/-- `cls(**args)` for a known test class: dispatch to the subclass
constructor with the row's fields (each constructor ignores the keyword
arguments that do not apply to it, as the Python constructors do via
`**kwargs`). -/
def makeTest : TestKind → Row → Except PyError TestObj
  | TestKind.ping, row =>
    match PingTest.make row.id_number row.destination row.count row.payload_size row.timeout row.addr_family row.interval with
    | Except.error e => Except.error e
    | Except.ok t => Except.ok (TestObj.ping t)
  | TestKind.traceroute, row =>
    match TracerouteTest.make row.id_number row.destination row.count row.payload_size row.timeout row.max_probes row.dont_resolve_names row.interval with
    | Except.error e => Except.error e
    | Except.ok t => Except.ok (TestObj.traceroute t)

/-- The error Python raises at `cls(**args)` when the register lookup
returned `None`: calling `None` is a `TypeError`. -/
def noneNotCallable : PyError :=
  PyError.typeError "'NoneType' object is not callable"

/-- The row loop of `CsvImportHandler.initialise`: for each row look up the
test class for its discriminator and construct the test, appending it to
`self.tests`. An unknown discriminator makes `cls` `None`, so `cls(**args)`
raises immediately; any constructor error also propagates. The whole
initialise phase therefore either yields the full list of constructed
tests or raises before the engine ever runs a test. -/
def initRows : List Row → Except PyError (List TestObj)
  | [] => Except.ok []
  | row :: rest =>
    match tests_register_get row.test_type with
    | Option.none => Except.error noneNotCallable
    | Option.some k =>
      match makeTest k row with
      | Except.error e => Except.error e
      | Except.ok t =>
        match initRows rest with
        | Except.error e => Except.error e
        | Except.ok ts => Except.ok (t :: ts)

/-- `TestEngine` over a CSV source: the constructor calls
`import_handler.initialise()` (which raises on a bad row, so the engine is
never built and `run_tests` never invokes any test); on success
`run_tests` drains the queue through `runf` (= run + export). -/
def engineRunCsv {β : Type} (rows : List Row) (runf : TestObj → β) : Except PyError (List β) :=
  match initRows rows with
  | Except.error e => Except.error e
  | Except.ok ts => Except.ok (run_tests runf ts)

/-- A value passed to `StdoutExportHandler.export_results`: a `PingResult`,
a `TracerouteResult`, or some other `Result` (the base class, or any
future subclass), of which only the base-class fields are relevant to the
dispatch. -/
inductive ResultVariant where
  | ping : PingResultS → ResultVariant
  | traceroute : TracerouteResultS → ResultVariant
  | other : Option Datetime → PyVal → ResultVariant
deriving DecidableEq

/-- `StdoutExportHandler.export_results(result)`: on a `PingResult`, format
the timestamp (an `AttributeError` if it is still `None`) and print the
header line and the rendered result; on a `TracerouteResult`, print its
rendering; on anything else, the `else` branch contains only the comment
"# throw an exception" followed by `pass`, so nothing is printed and
nothing is raised. The returned list is the sequence of printed lines. -/
def export_results : ResultVariant → Except PyError (List String)
  | ResultVariant.ping r =>
    match r.timestamp with
    | Option.none => Except.error PyError.attributeError
    | Option.some ts =>
      Except.ok ["\nTimestamp:     " ++ strftimeHMSDMY ts,
                 "Destination: " ++ r.str]
  | ResultVariant.traceroute r => Except.ok [r.str]
  | ResultVariant.other _ _ => Except.ok []

/-- A concrete traceroute test: the object `TracerouteTest(id_number=2,
destination="www.google.com")` constructs when every keyword argument is
absent (all defaults; interval 0.5 s already converted to 500 ms). -/
def sampleTraceTest : TracerouteTestS :=
  { id_number := PyVal.int 2
    timestamp := Option.none
    destination := PyVal.str "www.google.com"
    count := PyVal.int 3
    payload_size := PyVal.none
    timeout := PyVal.int 1
    max_probes := PyVal.int 30
    dont_resolve_names := PyVal.bool false
    interval := PyVal.int 500 }

/-- A concrete ping test: the object `PingTest(id_number=1,
destination="8.8.8.8")` constructs when every keyword argument is absent. -/
def samplePingTest : PingTestS :=
  { id_number := PyVal.int 1
    timestamp := Option.none
    destination := PyVal.str "8.8.8.8"
    count := PyVal.int 5
    payload_size := PyVal.int 56
    timeout := PyVal.int 1
    addr_family := PyVal.int 4
    interval := PyVal.float (1 / 5) }

/-- A concrete instant used to exercise `run()`. -/
def sampleDatetime : Datetime :=
  { year := 2026, month := 10, day := 12, hour := 9, minute := 30, second := 0 }

/-- A concrete icmplib Host reply used to exercise the ping `run()`. -/
def sampleHost : Host :=
  { address := "8.8.8.8"
    is_alive := true
    min_rtt := 10
    avg_rtt := 12
    max_rtt := 15
    rtts := [10, 12, 15]
    packets_sent := 5
    packets_received := 5
    packet_loss := 0
    jitter := 2
    hostStr := "sample host" }

/-- A concrete jc parse result used to exercise the traceroute `run()`. -/
def sampleTraceData : TraceData :=
  { destination_ip := "142.250.76.100"
    destination_name := "www.google.com"
    hops := [] }

/-! ### Helper lemmas -/

theorem toDigitsCore_length_mono (b : Nat) :
    ∀ (f n : Nat) (ds : List Char), ds.length ≤ (Nat.toDigitsCore b f n ds).length := by
  intro f
  induction f with
  | zero => intro n ds; simp [Nat.toDigitsCore]
  | succ f ih =>
    intro n ds
    rw [Nat.toDigitsCore]
    split
    · simp
    · exact le_trans (by simp) (ih _ _)

theorem toDigits_ne_nil (b n : Nat) : Nat.toDigits b n ≠ [] := by
  rw [Nat.toDigits, Nat.toDigitsCore]
  split
  · simp
  · intro h
    have h1 : (1 : Nat) ≤ (Nat.toDigitsCore b n (n / b) [Nat.digitChar (n % b)]).length :=
      le_trans (by simp) (toDigitsCore_length_mono b n (n / b) [Nat.digitChar (n % b)])
    rw [h] at h1
    simp at h1

theorem pyNatRepr_ne_empty (n : Nat) : pyNatRepr n ≠ "" := by
  intro h
  apply toDigits_ne_nil 10 n
  simpa [pyNatRepr, Nat.repr, List.asString, String.ext_iff] using h

theorem pyIntRepr_ne_empty (n : Int) : pyIntRepr n ≠ "" := by
  unfold pyIntRepr
  split
  · intro h
    have := congrArg String.length h
    simp [String.length_append] at this
    exact absurd this.1 (by decide)
  · exact pyNatRepr_ne_empty n.natAbs

theorem none_not_mem_filter_truthy (l : List PyVal) : PyVal.none ∉ l.filter pyTruthy := by
  intro h
  have := (List.mem_filter.mp h).2
  simp [pyTruthy] at this

theorem emptystr_not_mem_filter_truthy (l : List PyVal) : PyVal.str "" ∉ l.filter pyTruthy := by
  intro h
  have := (List.mem_filter.mp h).2
  simp [pyTruthy] at this

theorem traceroute_make_fields (idn dst cnt pld tmo mxp dnr itv : PyVal) (t : TracerouteTestS)
    (h : TracerouteTest.make idn dst cnt pld tmo mxp dnr itv = Except.ok t) :
    t.timestamp = Option.none ∧
    convert_type pld PyType.int PyVal.none = Except.ok t.payload_size ∧
    ∃ iv0, convert_type itv PyType.float (PyVal.float (1 / 2)) = Except.ok iv0 ∧
      intTimes1000 iv0 = Except.ok t.interval := by
  unfold TracerouteTest.make at h
  repeat' split at h
  all_goals first
    | (injection h with h
       subst h
       exact ⟨rfl, by assumption, _, by assumption, by assumption⟩)
    | exact absurd h (by simp)

theorem ping_make_timestamp (idn dst cnt pld tmo adf itv : PyVal) (t : PingTestS)
    (h : PingTest.make idn dst cnt pld tmo adf itv = Except.ok t) :
    t.timestamp = Option.none := by
  unfold PingTest.make at h
  repeat' split at h
  all_goals first
    | (injection h with h
       subst h
       rfl)
    | exact absurd h (by simp)

theorem run_tests_nil {α β : Type} (runf : α → β) : run_tests runf [] = [] := by
  rw [run_tests]
  split
  · rfl
  · rename_i t rest h
    simp [next_test] at h

theorem run_tests_cons {α β : Type} (runf : α → β) (t : α) (rest : List α) :
    run_tests runf (t :: rest) = runf t :: run_tests runf rest := by
  rw [run_tests]
  split
  · rename_i h
    simp [next_test] at h
  · rename_i t2 rest2 h
    simp only [next_test, Prod.mk.injEq, Option.some.injEq] at h
    rw [h.1, h.2]

theorem traceroute_make_interval_float (idn dst cnt pld tmo mxp dnr : PyVal) (q : ℚ)
    (t : TracerouteTestS)
    (h : TracerouteTest.make idn dst cnt pld tmo mxp dnr (PyVal.float q) = Except.ok t) :
    t.interval = PyVal.int (ratTrunc (q * 1000)) := by
  obtain ⟨-, -, iv0, hiv0, hint⟩ := traceroute_make_fields _ _ _ _ _ _ _ _ _ h
  have hc : convert_type (PyVal.float q) PyType.float (PyVal.float (1 / 2)) =
      Except.ok (PyVal.float q) := by
    simp [convert_type, isinstance]
  rw [hc] at hiv0
  injection hiv0 with hiv0
  rw [← hiv0] at hint
  simp [intTimes1000] at hint
  exact hint.symm

theorem traceroute_make_interval_default (idn dst cnt pld tmo mxp dnr : PyVal)
    (t : TracerouteTestS)
    (h : TracerouteTest.make idn dst cnt pld tmo mxp dnr PyVal.none = Except.ok t) :
    t.interval = PyVal.int 500 := by
  obtain ⟨-, -, iv0, hiv0, hint⟩ := traceroute_make_fields _ _ _ _ _ _ _ _ _ h
  have hc : convert_type PyVal.none PyType.float (PyVal.float (1 / 2)) =
      Except.ok (PyVal.float (1 / 2)) := by
    simp [convert_type]
  rw [hc] at hiv0
  injection hiv0 with hiv0
  rw [← hiv0] at hint
  simp [intTimes1000] at hint
  rw [← hint]
  norm_num [ratTrunc]

theorem filtered_command_has_z_flag (t : TracerouteTestS) (n : Int)
    (hn : t.interval = PyVal.int n) :
    ∃ l1 l2, traceroute_command_filtered t =
      l1 ++ PyVal.str "-z" :: PyVal.str (pyIntRepr n) :: l2 := by
  have hmid : List.filter pyTruthy [PyVal.str "-z", PyVal.str (pyIntRepr n)] =
      [PyVal.str "-z", PyVal.str (pyIntRepr n)] := by
    simp [List.filter, pyTruthy, pyIntRepr_ne_empty]
  refine ⟨List.filter pyTruthy
      [PyVal.str "traceroute",
       (if pyTruthy t.dont_resolve_names then PyVal.str "-n" else PyVal.str ""),
       PyVal.str "-w", PyVal.str (pyStr t.timeout),
       PyVal.str "-q", PyVal.str (pyStr t.count),
       PyVal.str "-m", PyVal.str (pyStr t.max_probes)],
    List.filter pyTruthy [t.destination, t.payload_size], ?_⟩
  rw [traceroute_command_filtered]
  rw [show traceroute_command t =
      [PyVal.str "traceroute",
       (if pyTruthy t.dont_resolve_names then PyVal.str "-n" else PyVal.str ""),
       PyVal.str "-w", PyVal.str (pyStr t.timeout),
       PyVal.str "-q", PyVal.str (pyStr t.count),
       PyVal.str "-m", PyVal.str (pyStr t.max_probes)] ++
      ([PyVal.str "-z", PyVal.str (pyStr t.interval)] ++
       [t.destination, t.payload_size]) from rfl]
  rw [List.filter_append, List.filter_append, hn]
  rw [show pyStr (PyVal.int n) = pyIntRepr n from rfl, hmid]
  simp

theorem sampleTraceTest_make :
    TracerouteTest.make (PyVal.int 2) (PyVal.str "www.google.com") PyVal.none PyVal.none
      PyVal.none PyVal.none PyVal.none PyVal.none = Except.ok sampleTraceTest := by
  simp [TracerouteTest.make, convert_type, isinstance, intTimes1000, sampleTraceTest]
  norm_num [ratTrunc]

theorem samplePingTest_make :
    PingTest.make (PyVal.int 1) (PyVal.str "8.8.8.8") PyVal.none PyVal.none
      PyVal.none PyVal.none PyVal.none = Except.ok samplePingTest := rfl

/-! ### Claim theorems -/

/-- C1: for a hop with a non-empty probe list the formatter renders the
first probe as "name (address) rtt ms"; each later probe whose address
equals the immediately preceding probe's address appends "  rtt ms" to the
current line, and one whose address differs starts a new line indented by
4 spaces with "name (address) rtt ms"; a hop with probes
[\x7bip:A\x7d,\x7bip:A\x7d,\x7bip:B\x7d] (A ≠ B) therefore renders as
exactly two lines: the first aggregating both A probes with two RTT
values, the second the new indented line for B. -/
theorem c1_hop_formatter_aggregation :
    (∀ (h : Hop) (p : Probe) (ps : List Probe), h.probes = p :: ps →
      hopText h =
        String.mk (List.replicate (2 - (pyIntRepr h.hop).length) ' ') ++ pyIntRepr h.hop ++ "  " ++
          (probeText p ++ restProbesText p.ip ps) ++ "\n") ∧
    (∀ (prev_ip : String) (p : Probe) (rest : List Probe), p.ip = prev_ip →
      restProbesText prev_ip (p :: rest) =
        ("  " ++ pyFloatRepr p.rtt ++ " ms") ++ restProbesText p.ip rest) ∧
    (∀ (prev_ip : String) (p : Probe) (rest : List Probe), p.ip ≠ prev_ip →
      restProbesText prev_ip (p :: rest) =
        ("\n" ++ "    " ++ probeText p) ++ restProbesText p.ip rest) ∧
    (∀ (h : Hop) (p1 p2 p3 : Probe), h.probes = [p1, p2, p3] → p2.ip = p1.ip → p3.ip ≠ p2.ip →
      hopText h =
        String.mk (List.replicate (2 - (pyIntRepr h.hop).length) ' ') ++ pyIntRepr h.hop ++ "  " ++
          (probeText p1 ++ "  " ++ pyFloatRepr p2.rtt ++ " ms" ++
            "\n" ++ "    " ++ probeText p3) ++ "\n") := by
  refine ⟨?_, ?_, ?_, ?_⟩
  · intro h p ps hp
    simp [hopText, hp]
  · intro prev_ip p rest hip
    simp [restProbesText, hip]
  · intro prev_ip p rest hip
    simp [restProbesText, hip]
  · intro h p1 p2 p3 hp h12 h13
    have h13' : p3.ip ≠ p1.ip := by rw [← h12]; exact h13
    rw [String.ext_iff]
    simp [hopText, hp, restProbesText, h12, h13', probeText, String.data_append]

/-- C1 witness: the theorem applied to a concrete hop with probes
[\x7bip:A\x7d,\x7bip:A\x7d,\x7bip:B\x7d]. -/
theorem c1_hop_formatter_aggregation_witness :
    hopText
        { hop := 10,
          probes := [{ name := "a", ip := "1.1.1.1", rtt := 5 },
                     { name := "a", ip := "1.1.1.1", rtt := 6 },
                     { name := "b", ip := "2.2.2.2", rtt := 7 }] } =
      "10  a (1.1.1.1) 5 ms  6 ms\n    b (2.2.2.2) 7 ms\n" := by
  have := c1_hop_formatter_aggregation.2.2.2
    { hop := 10,
      probes := [{ name := "a", ip := "1.1.1.1", rtt := 5 },
                 { name := "a", ip := "1.1.1.1", rtt := 6 },
                 { name := "b", ip := "2.2.2.2", rtt := 7 }]}
    { name := "a", ip := "1.1.1.1", rtt := 5 }
    { name := "a", ip := "1.1.1.1", rtt := 6 }
    { name := "b", ip := "2.2.2.2", rtt := 7 }
    rfl rfl (by decide)
  rw [this]
  rfl

/-- C8: a hop whose probe list is empty renders as the right-aligned (to
width 2) hop index, two spaces, the literal "* * *" and a newline; a
path-trace result whose hop list is empty renders as the empty string. -/
theorem c8_empty_hops :
    (∀ (h : Hop), h.probes = [] →
      hopText h =
        String.mk (List.replicate (2 - (pyIntRepr h.hop).length) ' ') ++ pyIntRepr h.hop ++ "  " ++
          "* * *" ++ "\n") ∧
    (∀ (r : TracerouteResultS), r.hops = [] → r.str = "") ∧
    traceroute_str [] = "" := by
  refine ⟨?_, ?_, rfl⟩
  · intro h hp
    simp [hopText, hp, String.append_assoc]
  · intro r hr
    simp [TracerouteResultS.str, hr, traceroute_str]

/-- C8 witness: the theorem applied to a concrete probe-less hop and a
concrete hop-less result. -/
theorem c8_empty_hops_witness :
    hopText { hop := 3, probes := [] } = " 3  * * *\n" ∧
    TracerouteResultS.str
        { timestamp := Option.none, id_number := PyVal.int 1,
          destination_ip := "8.8.8.8", destination_name := "dns.google", hops := [] } = "" := by
  constructor
  · have := c8_empty_hops.1 { hop := 3, probes := [] } rfl
    rw [this]
    rfl
  · exact c8_empty_hops.2.1
      { timestamp := Option.none, id_number := PyVal.int 1,
        destination_ip := "8.8.8.8", destination_name := "dns.google", hops := [] } rfl

/-- C2: coercion to a boolean target maps any casing of "true" to `True`
and any casing of "false" to `False`; every other string raises the
coercion-failure `TypeError` whose message names the offending value and
the target type (the spec's `InvalidParameter` condition); in particular
"false" is never treated as truthy. -/
theorem c2_bool_coercion (s : String) (d : PyVal) :
    (pyLower s = "true" →
      convert_type (PyVal.str s) PyType.bool d = Except.ok (PyVal.bool true)) ∧
    (pyLower s = "false" →
      convert_type (PyVal.str s) PyType.bool d = Except.ok (PyVal.bool false)) ∧
    (pyLower s ≠ "true" → pyLower s ≠ "false" →
      convert_type (PyVal.str s) PyType.bool d =
        Except.error (PyError.typeError ("Cannot convert " ++ s ++ " to " ++ "<class 'bool'>"))) := by
  refine ⟨?_, ?_, ?_⟩
  · intro h1
    simp [convert_type, isinstance, h1]
  · intro h1
    simp [convert_type, isinstance, h1]
  · intro h1 h2
    simp [convert_type, isinstance, h1, h2, pyStr, pyTypeName]

/-- C2 witness: the theorem applied at "TRUE", "False" and "maybe". -/
theorem c2_bool_coercion_witness :
    convert_type (PyVal.str "TRUE") PyType.bool PyVal.none = Except.ok (PyVal.bool true) ∧
    convert_type (PyVal.str "False") PyType.bool PyVal.none = Except.ok (PyVal.bool false) ∧
    convert_type (PyVal.str "maybe") PyType.bool PyVal.none =
      Except.error (PyError.typeError ("Cannot convert " ++ "maybe" ++ " to " ++ "<class 'bool'>")) :=
  ⟨(c2_bool_coercion "TRUE" PyVal.none).1 (by decide),
   (c2_bool_coercion "False" PyVal.none).2.1 (by decide),
   (c2_bool_coercion "maybe" PyVal.none).2.2 (by decide) (by decide)⟩

/-- C3: a `None` argument yields the caller-supplied default verbatim, with
no conversion attempted, whatever that default is (including 0, 0.0 and
False); an argument that is already an instance of the target type is
returned unchanged; in particular a supplied 0 (int target) or False
(bool target) is returned as-is, never replaced by the default. -/
theorem c3_default_and_passthrough :
    (∀ (ty : PyType) (d : PyVal), convert_type PyVal.none ty d = Except.ok d) ∧
    (∀ (v : PyVal) (ty : PyType) (d : PyVal), isinstance v ty = true →
      convert_type v ty d = Except.ok v) ∧
    (∀ d : PyVal, convert_type (PyVal.int 0) PyType.int d = Except.ok (PyVal.int 0)) ∧
    (∀ d : PyVal, convert_type (PyVal.bool false) PyType.bool d = Except.ok (PyVal.bool false)) := by
  refine ⟨?_, ?_, ?_, ?_⟩
  · intro ty d
    simp [convert_type]
  · intro v ty d h
    cases v with
    | none => cases ty <;> simp [isinstance] at h
    | int n => simp [convert_type, h]
    | float q => simp [convert_type, h]
    | bool b => simp [convert_type, h]
    | str s => simp [convert_type, h]
  · intro d
    simp [convert_type, isinstance]
  · intro d
    simp [convert_type, isinstance]

/-- C3 witness: the theorem applied at concrete inputs, including a zero
default returned for an absent value and a supplied 0 kept over a
non-zero default. -/
theorem c3_default_and_passthrough_witness :
    convert_type PyVal.none PyType.int (PyVal.int 0) = Except.ok (PyVal.int 0) ∧
    convert_type (PyVal.float 0) PyType.float (PyVal.float 1) = Except.ok (PyVal.float 0) ∧
    convert_type (PyVal.int 0) PyType.int (PyVal.int 5) = Except.ok (PyVal.int 0) ∧
    convert_type (PyVal.bool false) PyType.bool (PyVal.bool true) = Except.ok (PyVal.bool false) :=
  ⟨c3_default_and_passthrough.1 PyType.int (PyVal.int 0),
   c3_default_and_passthrough.2.1 (PyVal.float 0) PyType.float (PyVal.float 1) (by decide),
   c3_default_and_passthrough.2.2.1 (PyVal.int 5),
   c3_default_and_passthrough.2.2.2 (PyVal.bool true)⟩

/-- C4: with the import source holding the queue [d1, d2], the engine's
drain loop produces exactly the two results, in source order; each
`next_test` call removes the returned definition from the queue; a third
`next_test` call on the drained queue returns the end-of-stream marker
`None`. -/
theorem c4_engine_drains (α β : Type) (runf : α → β) (d1 d2 : α) :
    next_test [d1, d2] = (Option.some d1, [d2]) ∧
    next_test [d2] = (Option.some d2, ([] : List α)) ∧
    next_test ([] : List α) = (Option.none, []) ∧
    run_tests runf [d1, d2] = [runf d1, runf d2] := by
  refine ⟨rfl, rfl, rfl, ?_⟩
  rw [run_tests_cons, run_tests_cons, run_tests_nil]

/-- C5 counter-evidence: `StdoutExportHandler.export_results` evaluated on
a Result that is neither a `PingResult` nor a `TracerouteResult` prints
nothing and raises nothing — the `else` branch holds only the comment
"# throw an exception" and a `pass`, so the unrecognized variant is
silently dropped instead of signalling the spec's `UnsupportedResult`
condition. -/
theorem c5_silent_drop :
    export_results (ResultVariant.other Option.none (PyVal.int 7)) = Except.ok [] := rfl

/-- C6: a row whose test_type discriminator matches no registered test kind
makes `CsvImportHandler.initialise` raise a hard error (the register
lookup yields None and `cls(**args)` raises `TypeError: 'NoneType' object
is not callable` — the spec's `UnknownTestKind` condition) provided the
rows before it constructed successfully; the engine built over that source
therefore fails during initialise, before any test executes and before
the sink receives anything; the record is never silently skipped. -/
theorem c6_unknown_kind_errors (β : Type) (runf : TestObj → β)
    (pre : List Row) (row : Row) (post : List Row) (ts : List TestObj)
    (hpre : initRows pre = Except.ok ts)
    (hk : tests_register_get row.test_type = Option.none) :
    initRows (pre ++ row :: post) = Except.error noneNotCallable ∧
    engineRunCsv (pre ++ row :: post) runf = Except.error noneNotCallable := by
  have main : initRows (pre ++ row :: post) = Except.error noneNotCallable := by
    induction pre generalizing ts with
    | nil => simp [initRows, hk]
    | cons r rs ih =>
      rw [initRows] at hpre
      repeat' split at hpre
      all_goals first
        | (have hmain := ih _ (by assumption)
           rw [List.cons_append, initRows]
           simp_all)
        | exact absurd hpre (by simp)
  exact ⟨main, by rw [engineRunCsv, main]⟩

/-- C6 witness: the theorem applied to a one-row source whose discriminator
"pong" is not registered. -/
theorem c6_unknown_kind_errors_witness :
    initRows [{ test_type := Option.some "pong", id_number := PyVal.int 1,
                destination := PyVal.str "8.8.8.8", count := PyVal.none,
                payload_size := PyVal.none, timeout := PyVal.none,
                max_probes := PyVal.none, dont_resolve_names := PyVal.none,
                addr_family := PyVal.none, interval := PyVal.none }] =
      Except.error noneNotCallable ∧
    engineRunCsv [{ test_type := Option.some "pong", id_number := PyVal.int 1,
                    destination := PyVal.str "8.8.8.8", count := PyVal.none,
                    payload_size := PyVal.none, timeout := PyVal.none,
                    max_probes := PyVal.none, dont_resolve_names := PyVal.none,
                    addr_family := PyVal.none, interval := PyVal.none }]
        (fun _ => (0 : Nat)) =
      Except.error noneNotCallable := by
  have := c6_unknown_kind_errors Nat (fun _ => (0 : Nat)) []
    { test_type := Option.some "pong", id_number := PyVal.int 1,
      destination := PyVal.str "8.8.8.8", count := PyVal.none,
      payload_size := PyVal.none, timeout := PyVal.none,
      max_probes := PyVal.none, dont_resolve_names := PyVal.none,
      addr_family := PyVal.none, interval := PyVal.none } [] [] rfl (by decide)
  simpa using this

/-- C7: a traceroute test's inter-probe interval, authored in seconds
(a float `q`, or absent with documented default 0.5 s), is converted at
construction to whole milliseconds as an integer — `int(interval * 1000)`
— and that integer is what follows the "-z" flag in the filtered
trace-command; in particular the default 0.5 s becomes the integer 500. -/
theorem c7_interval_ms :
    (∀ (idn dst cnt pld tmo mxp dnr : PyVal) (q : ℚ) (t : TracerouteTestS),
      TracerouteTest.make idn dst cnt pld tmo mxp dnr (PyVal.float q) = Except.ok t →
      t.interval = PyVal.int (ratTrunc (q * 1000)) ∧
      ∃ l1 l2, traceroute_command_filtered t =
        l1 ++ PyVal.str "-z" :: PyVal.str (pyIntRepr (ratTrunc (q * 1000))) :: l2) ∧
    (∀ (idn dst cnt pld tmo mxp dnr : PyVal) (t : TracerouteTestS),
      TracerouteTest.make idn dst cnt pld tmo mxp dnr PyVal.none = Except.ok t →
      t.interval = PyVal.int 500 ∧
      ∃ l1 l2, traceroute_command_filtered t =
        l1 ++ PyVal.str "-z" :: PyVal.str "500" :: l2) := by
  constructor
  · intro idn dst cnt pld tmo mxp dnr q t h
    have hi := traceroute_make_interval_float idn dst cnt pld tmo mxp dnr q t h
    exact ⟨hi, filtered_command_has_z_flag t _ hi⟩
  · intro idn dst cnt pld tmo mxp dnr t h
    have hi := traceroute_make_interval_default idn dst cnt pld tmo mxp dnr t h
    exact ⟨hi, filtered_command_has_z_flag t 500 hi⟩

/-- C7 witness: the theorem applied to the default-constructed traceroute
test (absent interval): the stored interval is the integer 500 and the
filtered command carries "-z" followed by "500". -/
theorem c7_interval_ms_witness :
    TracerouteTest.make (PyVal.int 2) (PyVal.str "www.google.com") PyVal.none PyVal.none
      PyVal.none PyVal.none PyVal.none PyVal.none = Except.ok sampleTraceTest ∧
    sampleTraceTest.interval = PyVal.int 500 ∧
    (∃ l1 l2, traceroute_command_filtered sampleTraceTest =
      l1 ++ PyVal.str "-z" :: PyVal.str "500" :: l2) :=
  ⟨sampleTraceTest_make,
   (c7_interval_ms.2 _ _ _ _ _ _ _ _ sampleTraceTest_make).1,
   (c7_interval_ms.2 _ _ _ _ _ _ _ _ sampleTraceTest_make).2⟩

/-- C9: a test's timestamp is `None` from construction until `run()`; the
`run()` template sets it (to the current instant) at the start; and the
Result built by that run carries exactly that timestamp and the test's
own id — for both test variants. -/
theorem c9_timestamp_id :
    (∀ (idn dst cnt pld tmo adf itv : PyVal) (t : PingTestS) (now : Datetime) (host : Host),
      PingTest.make idn dst cnt pld tmo adf itv = Except.ok t →
      t.timestamp = Option.none ∧
      (PingTest.run t now host).1.timestamp = Option.some now ∧
      (PingTest.run t now host).2.timestamp = Option.some now ∧
      (PingTest.run t now host).2.id_number = t.id_number) ∧
    (∀ (idn dst cnt pld tmo mxp dnr itv : PyVal) (t : TracerouteTestS) (now : Datetime)
        (data : TraceData),
      TracerouteTest.make idn dst cnt pld tmo mxp dnr itv = Except.ok t →
      t.timestamp = Option.none ∧
      (TracerouteTest.run t now data).1.timestamp = Option.some now ∧
      (TracerouteTest.run t now data).2.timestamp = Option.some now ∧
      (TracerouteTest.run t now data).2.id_number = t.id_number) := by
  constructor
  · intro idn dst cnt pld tmo adf itv t now host h
    exact ⟨ping_make_timestamp idn dst cnt pld tmo adf itv t h, rfl, rfl, rfl⟩
  · intro idn dst cnt pld tmo mxp dnr itv t now data h
    exact ⟨(traceroute_make_fields idn dst cnt pld tmo mxp dnr itv t h).1, rfl, rfl, rfl⟩

/-- C9 witness: the theorem applied to concretely constructed ping and
traceroute tests run at a concrete instant. -/
theorem c9_timestamp_id_witness :
    (samplePingTest.timestamp = Option.none ∧
      (PingTest.run samplePingTest sampleDatetime sampleHost).2.timestamp =
        Option.some sampleDatetime ∧
      (PingTest.run samplePingTest sampleDatetime sampleHost).2.id_number =
        samplePingTest.id_number) ∧
    (sampleTraceTest.timestamp = Option.none ∧
      (TracerouteTest.run sampleTraceTest sampleDatetime sampleTraceData).2.timestamp =
        Option.some sampleDatetime ∧
      (TracerouteTest.run sampleTraceTest sampleDatetime sampleTraceData).2.id_number =
        sampleTraceTest.id_number) := by
  have hp := c9_timestamp_id.1 (PyVal.int 1) (PyVal.str "8.8.8.8") PyVal.none PyVal.none
    PyVal.none PyVal.none PyVal.none samplePingTest sampleDatetime sampleHost
    samplePingTest_make
  have ht := c9_timestamp_id.2 (PyVal.int 2) (PyVal.str "www.google.com") PyVal.none PyVal.none
    PyVal.none PyVal.none PyVal.none PyVal.none sampleTraceTest sampleDatetime sampleTraceData
    sampleTraceTest_make
  exact ⟨⟨hp.1, hp.2.2.1, hp.2.2.2⟩, ⟨ht.1, ht.2.2.1, ht.2.2.2⟩⟩

/-- C10: a traceroute test constructed with an absent payload_size stores
`None` (no default is applied), and the filtered subprocess command
contains neither that `None` nor any empty string — absent arguments are
omitted entirely rather than forwarded as null or empty text. -/
theorem c10_payload_omitted (idn dst cnt tmo mxp dnr itv : PyVal) (t : TracerouteTestS)
    (h : TracerouteTest.make idn dst cnt PyVal.none tmo mxp dnr itv = Except.ok t) :
    t.payload_size = PyVal.none ∧
    PyVal.none ∉ traceroute_command_filtered t ∧
    PyVal.str "" ∉ traceroute_command_filtered t := by
  obtain ⟨-, hpld, -⟩ := traceroute_make_fields idn dst cnt PyVal.none tmo mxp dnr itv t h
  have hc : convert_type PyVal.none PyType.int PyVal.none = Except.ok PyVal.none := by
    simp [convert_type]
  rw [hc] at hpld
  injection hpld with hpld
  exact ⟨hpld.symm, none_not_mem_filter_truthy (traceroute_command t),
    emptystr_not_mem_filter_truthy (traceroute_command t)⟩

/-- C10 witness: the theorem applied to the default-constructed traceroute
test. -/
theorem c10_payload_omitted_witness :
    sampleTraceTest.payload_size = PyVal.none ∧
    PyVal.none ∉ traceroute_command_filtered sampleTraceTest ∧
    PyVal.str "" ∉ traceroute_command_filtered sampleTraceTest :=
  c10_payload_omitted (PyVal.int 2) (PyVal.str "www.google.com") PyVal.none PyVal.none
    PyVal.none PyVal.none PyVal.none sampleTraceTest sampleTraceTest_make

end Ant
